import Mathlib

/-!
# Verification of the DailyBit AI microservice retrieval core

Shallow embedding of the context-aware retrieval pipeline of the
`daily-bit-ai` service: the topic chunker (`app/services/kb_service.py`),
the context resolver / retriever (`app/services/qa_service.py`), the
search routes (`app/routes/qa.py`) and the RAG answer orchestrator
(`app/services/llm_service.py`).

Modelling conventions:
* Python floats are modelled as rationals (`ℚ`); `round(x, 4)` is modelled
  as exact round-half-to-even at 4 decimal digits (`pyRound4`).
* The embedding model and the vector store's nearest-neighbour search are
  external collaborators; a collection is modelled as an oracle that maps
  (query text, metadata filter, n_results) to the raw result rows
  (document, metadata, cosine distance) Chroma would return.  An absent
  collection (Chroma `NotFoundError`, caught and turned into `None` by
  `QAService._get_topic_collection`) is modelled as `Option.none`.
* Python dict metadata is modelled as an association list
  (`List (String × String)`); dict merge `{**base, **extra}` with disjoint
  keys is modelled as `base ++ extra` under first-match `lookup`.
* Exceptions of fallible collaborators are modelled with `Except String`;
  a Python function that cannot raise is a total Lean function.
* The cosmetic indentation inside Python triple-quoted f-strings and the
  final `.strip()` are not reproduced byte-for-byte in chunk texts; the
  content pieces and their order are.  No claim concerns exact whitespace.
-/

namespace DailyBit

/-- Metadata mapping attached to a chunk (Python dict of string values). -/
abbrev Metadata := List (String × String)

/-! ## Python string primitives

Python strings are sequences of code points; the primitives the service
uses (slicing, `startswith`, `strip`, `lower`, substring `in`) are
modelled directly on the underlying character list `String.data`. -/

/-- Python `s.startswith(p)`. -/
def pyStartsWith (s p : String) : Bool := p.data.isPrefixOf s.data

/-- Python slicing `s[n:]` (drop the first `n` code points). -/
def pyDrop (s : String) (n : ℕ) : String := String.mk (s.data.drop n)

/-- Python whitespace as stripped by `str.strip()`. -/
def pyIsSpace (c : Char) : Bool :=
  (c == ' ') || (c == '\t') || (c == '\n') || (c == '\r') || (c == '\x0b') || (c == '\x0c')

/-- Python `s.strip()`: drop whitespace from both ends. -/
def pyStrip (s : String) : String :=
  String.mk (((s.data.dropWhile pyIsSpace).reverse.dropWhile pyIsSpace).reverse)

/-- Python `str.lower` on one character, restricted to ASCII (every
keyword of the classifier and every hint in the claims is ASCII). -/
def asciiLower (c : Char) : Char :=
  if 65 ≤ c.toNat ∧ c.toNat ≤ 90 then Char.ofNat (c.toNat + 32) else c

/-- Python `s.lower()`. -/
def pyLower (s : String) : String := String.mk (s.data.map asciiLower)

/-- Substring test on character lists (Python `needle in hay`). -/
def containsSub (needle : List Char) : List Char → Bool
  | [] => needle.isEmpty
  | c :: t => needle.isPrefixOf (c :: t) || containsSub needle t

/-- Python `needle in hay` on strings. -/
def pyContains (hay needle : String) : Bool := containsSub needle.data hay.data

/-! ## Rounding: model of Python `round(x, 4)` (round half to even) -/

/-- Round a rational to the nearest integer, ties to the even integer
(Python's `round` convention, a.k.a. banker's rounding). -/
def roundHalfEven (x : ℚ) : ℤ :=
  let n := ⌊x⌋
  let r := x - n
  if r < 1 / 2 then n
  else if 1 / 2 < r then n + 1
  else if 2 ∣ n then n else n + 1

/-- Model of Python `round(x, 4)`: round half to even at 4 decimal digits. -/
def pyRound4 (x : ℚ) : ℚ :=
  (roundHalfEven (x * 10000) : ℚ) / 10000

/-! ## Context resolver: `QAService.parse_context`

The Chroma `where` dictionaries produced by `parse_context` take exactly
three shapes, captured by `Filter`:
* no filter (`None`),
* `\x7b"topic": name\x7d` (`Filter.topicEq name`),
* `\x7b"$or": [\x7b"title": ref\x7d, \x7b"problem_id": ref\x7d]\x7d`
  (`Filter.problemOr ref`). -/
inductive Filter where
  | none : Filter
  | topicEq (name : String) : Filter
  | problemOr (ref : String) : Filter
deriving DecidableEq, Repr

/-- Semantics of a `Filter` against a chunk's metadata mapping, as Chroma
evaluates the corresponding `where` dictionary: `topicEq` is an exact
equality test on the `topic` metadata key, `problemOr` is the disjunction
of exact equality tests on the `title` and `problem_id` keys. -/
def filterMatches : Filter → Metadata → Bool
  | Filter.none, _ => true
  | Filter.topicEq name, md => md.lookup "topic" == some name
  | Filter.problemOr ref, md =>
      md.lookup "title" == some ref || md.lookup "problem_id" == some ref

/-- Result of `QAService.parse_context`: which collection to search and
which metadata filter to pass to the vector store. -/
structure QueryContext where
  collection_type : String
  filters : Filter
deriving DecidableEq, Repr

/-- `QAService.parse_context`.  `Option.none` models Python `None`; the
empty string is falsy in Python, so it takes the no-context branch too.
`context[6:]` / `context[8:]` are `String.drop 6` / `String.drop 8`, and
Python `.strip()` is `String.trim`. -/
def parse_context (context : Option String) : QueryContext :=
  match context with
  | Option.none => { collection_type := "topics", filters := Filter.none }
  | some c =>
    if c = "" then { collection_type := "topics", filters := Filter.none }
    else if pyStartsWith c "topic:" then
      { collection_type := "topics", filters := Filter.topicEq (pyStrip (pyDrop c 6)) }
    else if pyStartsWith c "problem:" then
      { collection_type := "problems", filters := Filter.problemOr (pyStrip (pyDrop c 8)) }
    else
      { collection_type := "topics", filters := Filter.topicEq c }

/-! ## Retriever: `QAService.retrieve_relevant_chunks_with_context` -/

/-- One raw result row from a vector-store query: document text, metadata
and cosine distance. -/
abbrev RawRow := String × Metadata × ℚ

/-- A vector collection as seen by the retriever: an oracle answering a
nearest-neighbour query (query text, filter, n_results) with result rows.
The embedding of the query text is folded into the oracle. -/
abbrev CollectionOracle := String → Filter → ℕ → List RawRow

/-- The persistent vector store: the `topics` and `problems` collections,
each possibly absent (`None` from the lazy getters when Chroma raises
`NotFoundError`). -/
structure StoreState where
  topics : Option CollectionOracle
  problems : Option CollectionOracle

/-- A retrieved chunk as formatted by
`QAService.retrieve_relevant_chunks_with_context`. -/
structure RetrievedChunk where
  content : String
  metadata : Metadata
  similarity_score : ℚ
  is_relevant : Bool
  context_used : Option String
deriving DecidableEq, Repr

/-- Formatting of one raw result row (loop body at
`qa_service.py:125-134`): `similarity_score = 1 - distance`, reported
rounded to 4 digits, while `is_relevant` compares the unrounded value
against the hard-coded threshold `0.7`. -/
def formatChunk (context : Option String) (row : RawRow) : RetrievedChunk :=
  let similarity_score : ℚ := 1 - row.2.2
  { content := row.1
    metadata := row.2.1
    similarity_score := pyRound4 similarity_score
    is_relevant := decide (similarity_score > 7 / 10)
    context_used := context }

/-- `QAService.retrieve_relevant_chunks_with_context`: parse the context,
pick the collection, return `[]` if it does not exist, otherwise query it
and format every row. -/
def retrieve_relevant_chunks_with_context (store : StoreState) (query : String)
    (context : Option String) (n_results : ℕ) : List RetrievedChunk :=
  let info := parse_context context
  let coll := if info.collection_type = "topics" then store.topics else store.problems
  match coll with
  | Option.none => []
  | some oracle => (oracle query info.filters n_results).map (formatChunk context)

/-- `QAService.retrieve_relevant_chunks` ("kept for backward
compatibility"): the `collection_type` argument is accepted and then
dropped — the call is forwarded with `context=None`. -/
def retrieve_relevant_chunks (store : StoreState) (query : String)
    (collection_type : String) (n_results : ℕ) : List RetrievedChunk :=
  let _ := collection_type
  retrieve_relevant_chunks_with_context store query Option.none n_results

/-- Keyword list of `QAService.determine_collection_type`. -/
def problem_keywords : List String :=
  ["solve", "problem", "leetcode", "codeforces", "hackerrank",
   "solution", "approach", "algorithm for", "how to code",
   "implement", "write a function", "coding question"]

/-- `QAService.determine_collection_type`: lowercase the query and return
`"problems"` iff some keyword occurs as a substring (Python `in`). -/
def determine_collection_type (query : String) : String :=
  let query_lower := pyLower query
  if problem_keywords.any (fun k => pyContains query_lower k)
  then "problems" else "topics"

/-- `QAService.is_search_successful`: an empty chunk list is unsuccessful;
otherwise success iff some chunk's (reported, rounded) score is `≥` the
threshold. -/
def is_search_successful (chunks : List RetrievedChunk)
    (similarity_threshold : ℚ) : Bool :=
  if chunks = [] then false
  else chunks.any (fun c => c.similarity_score ≥ similarity_threshold)

/-! ## Search routes: `app/routes/qa.py` -/

/-- Body of the `/search` POST route (`SearchRequest` model); optional
fields default to `None`. -/
structure SearchRequest where
  query : String
  context : Option String
  n_results : Option ℕ
  similarity_threshold : Option ℚ

/-- The `/search` response model. -/
structure SearchResponse where
  query : String
  collection_type : String
  is_successful : Bool
  total_chunks_found : ℕ
  relevant_chunks_count : ℕ
  chunks : List RetrievedChunk
  top_similarity_score : ℚ
  context_used : Option String

/-- The `search_with_context` route handler: retrieve with the request's
context, compute success with the caller's threshold (default `0.7`),
count chunks flagged `is_relevant`, and report `collection_type` from the
shape of the context hint alone. -/
def search_with_context (store : StoreState) (request : SearchRequest) :
    SearchResponse :=
  let n_results := request.n_results.getD 5
  let chunks := retrieve_relevant_chunks_with_context store request.query
    request.context n_results
  let similarity_threshold := request.similarity_threshold.getD (7 / 10)
  let is_successful := is_search_successful chunks similarity_threshold
  let relevant_chunks_count := (chunks.filter (fun c => c.is_relevant)).length
  let top_similarity := (chunks.map (fun c => c.similarity_score)).foldl max 0
  let collection_type :=
    match request.context with
    | some c => if c ≠ "" ∧ pyStartsWith c "problem:" then "problems" else "topics"
    | Option.none => "topics"
  { query := request.query
    collection_type := collection_type
    is_successful := is_successful
    total_chunks_found := chunks.length
    relevant_chunks_count := relevant_chunks_count
    chunks := chunks
    top_similarity_score := top_similarity
    context_used := request.context }

/-- The `/search-simple` GET route response (a plain dict in Python). -/
structure SimpleSearchResponse where
  query : String
  collection_type : String
  search_successful : Bool
  relevant_chunks : ℕ
  total_chunks : ℕ
  top_similarity_score : ℚ
  results : List RetrievedChunk

/-- The `search_simple` route handler (legacy path): classify the query
with `determine_collection_type`, then call `retrieve_relevant_chunks`
with that classification. -/
def search_simple (store : StoreState) (query : String) (n_results : ℕ)
    (threshold : ℚ) : SimpleSearchResponse :=
  let collection_type := determine_collection_type query
  let chunks := retrieve_relevant_chunks store query collection_type n_results
  { query := query
    collection_type := collection_type
    search_successful := is_search_successful chunks threshold
    relevant_chunks := (chunks.filter (fun c => c.is_relevant)).length
    total_chunks := chunks.length
    top_similarity_score := (chunks.map (fun c => c.similarity_score)).foldl max 0
    results := chunks }

/-! ## Decimal rendering

Python renders the loop index `i` inside an f-string as its standard
decimal digit string (`str(i)`); `natDecimal` is that digit list. -/

/-- Fuel-indexed decimal rendering (structural recursion so that concrete
instances reduce in the kernel); with enough fuel it produces the decimal
digit list of `n`. -/
def natDecimalAux : ℕ → ℕ → List Char
  | 0, _ => []
  | fuel + 1, n =>
    if n < 10 then [Nat.digitChar n]
    else natDecimalAux fuel (n / 10) ++ [Nat.digitChar (n % 10)]

/-- Decimal digit list of a natural number (the characters `str(i)`
produces in Python); `n + 1` fuel always suffices. -/
def natDecimal (n : ℕ) : List Char := natDecimalAux (n + 1) n

/-- Decimal rendering as a string. -/
def natDecimalStr (n : ℕ) : String := String.mk (natDecimal n)

/-- Value parsed back from a digit list; left inverse of `natDecimal`. -/
def digitsVal (l : List Char) : ℕ :=
  l.foldl (fun a c => a * 10 + (c.toNat - 48)) 0

/-! ## Topic data model (`app/models/topic.py`)

`Category`, `Difficulty` and `ComplexityClass` are string enums in the
source; only their `.value` strings reach the chunker, so they are
modelled as strings. -/

/-- `CodeExample` (the `complexity` field is never read by the chunker and
is omitted). -/
structure CodeExample where
  code : String
  language : String
  description : String
deriving DecidableEq, Repr

/-- `ComplexityAnalysis`: the chunker reads `time` (operation to
complexity-class mapping, rendered in insertion order), `space` and
`notes`. -/
structure ComplexityAnalysis where
  time : List (String × String)
  space : String
  notes : Option String
deriving DecidableEq, Repr

/-- `ProblemPattern`. -/
structure ProblemPattern where
  name : String
  description : String
  example_problems : List String
deriving DecidableEq, Repr

/-- `Topic`: the fields the chunker reads.  `visual_aids`, `variations`,
`resources`, `nickname`, `example_problems` and the `metadata` sub-model
are never read by `create_chunks_from_topic` and are omitted. -/
structure Topic where
  id : Option String
  title : String
  category : String
  difficulty : String
  prerequisites : List String
  related_topics : List String
  definition : String
  key_ideas : List String
  detailed_explanation : String
  algorithm_steps : Option (List String)
  code_examples : List CodeExample
  complexity : ComplexityAnalysis
  use_cases : List String
  advantages : List String
  disadvantages : List String
  common_mistakes : List String
  problem_patterns : List ProblemPattern
  implementation_notes : Option String
deriving DecidableEq, Repr

/-- A chunk produced by the chunker. -/
structure Chunk where
  id : String
  text : String
  metadata : Metadata
deriving DecidableEq, Repr

/-! ## Topic chunker (`KnowledgeBaseService.create_chunks_from_topic`) -/

/-- Python `topic_data.id or str(uuid.uuid4())`: `None` and the empty
string are falsy and fall back to a fresh random uuid, modelled as the
explicit `fresh` argument (one fresh value per chunking call). -/
def topicIdOf (fresh : String) (t : Topic) : String :=
  match t.id with
  | some s => if s = "" then fresh else s
  | Option.none => fresh

/-- Bulleted rendering of a list field (`"- x"` lines joined by
newlines). -/
def bulleted (l : List String) : String :=
  String.intercalate "\n" (l.map (fun s => "- " ++ s))

/-- Numbered rendering (`"1. x"` lines, 1-based as in the source). -/
def numbered (l : List String) : String :=
  String.intercalate "\n" (l.enum.map (fun p => natDecimalStr (p.1 + 1) ++ ". " ++ p.2))

/-- `base_metadata` of `create_chunks_from_topic`. -/
def topic_base_metadata (topic_id : String) (t : Topic) : Metadata :=
  [("topic", t.title),
   ("topic_id", topic_id),
   ("category", t.category),
   ("difficulty", t.difficulty),
   ("prerequisites", String.intercalate "," t.prerequisites),
   ("related_topics", String.intercalate "," t.related_topics)]

/-- Id suffix of the i-th code-example chunk:
`f"_code_{language}_{i}"`. -/
def codeSuffix (language : String) (i : ℕ) : String :=
  "_code_" ++ language ++ "_" ++ String.mk (natDecimal i)

/-- Body of `create_chunks_from_topic` once the topic id is fixed.
Conditional sections mirror Python truthiness: `detailed_explanation`
skipped when empty, `algorithm_steps` when `None` or `[]`,
`problem_patterns` when `[]`, the complexity `notes` and
`implementation_notes` tails when `None` or empty. -/
def chunksFor (topic_id : String) (t : Topic) : List Chunk :=
  let base := topic_base_metadata topic_id t
  let core : Chunk :=
    { id := topic_id ++ "_core"
      text := "Topic: " ++ t.title ++ "\nType: Core Concept\n\nDefinition: "
        ++ t.definition ++ "\n\nKey Ideas:\n" ++ bulleted t.key_ideas
      metadata := base ++ [("chunk_type", "core_concept")] }
  let explanation : List Chunk :=
    if t.detailed_explanation = "" then []
    else [{ id := topic_id ++ "_explanation"
            text := "Topic: " ++ t.title ++ "\nType: Detailed Explanation\n\n"
              ++ t.detailed_explanation
            metadata := base ++ [("chunk_type", "detailed_explanation")] }]
  let steps : List Chunk :=
    match t.algorithm_steps with
    | some l =>
      if l = [] then []
      else [{ id := topic_id ++ "_steps"
              text := "Topic: " ++ t.title
                ++ "\nType: Algorithm Steps\n\nStep-by-Step Process:\n" ++ numbered l
              metadata := base ++ [("chunk_type", "algorithm_steps")] }]
    | Option.none => []
  let complexity_text :=
    let head := "Topic: " ++ t.title ++ "\nType: Complexity Analysis\n\nTime Complexity:\n"
      ++ String.intercalate "\n" (t.complexity.time.map (fun p => "- " ++ p.1 ++ ": " ++ p.2))
      ++ "\n\nSpace Complexity: " ++ t.complexity.space
    match t.complexity.notes with
    | some notes => if notes = "" then head else head ++ "\n\nNotes: " ++ notes
    | Option.none => head
  let complexityChunk : Chunk :=
    { id := topic_id ++ "_complexity"
      text := complexity_text
      metadata := base ++ [("chunk_type", "complexity")] }
  let codeChunks : List Chunk :=
    t.code_examples.enum.map (fun p =>
      { id := topic_id ++ codeSuffix p.2.language p.1
        text := "Topic: " ++ t.title ++ "\nType: Code Example\nLanguage: " ++ p.2.language
          ++ "\n\nDescription: " ++ p.2.description ++ "\n\nCode:\n" ++ p.2.code
        metadata := base ++
          [("chunk_type", "code_example"),
           ("language", p.2.language),
           ("example_index", natDecimalStr p.1)] })
  let applications : Chunk :=
    { id := topic_id ++ "_applications"
      text := "Topic: " ++ t.title ++ "\nType: Practical Applications\n\nUse Cases:\n"
        ++ bulleted t.use_cases ++ "\n\nAdvantages:\n" ++ bulleted t.advantages
        ++ "\n\nDisadvantages:\n" ++ bulleted t.disadvantages
      metadata := base ++ [("chunk_type", "practical_applications")] }
  let patterns : List Chunk :=
    if t.problem_patterns = [] then []
    else [{ id := topic_id ++ "_patterns"
            text := "Topic: " ++ t.title ++ "\nType: Problem Patterns\n"
              ++ String.intercalate "\n" (t.problem_patterns.map (fun pat =>
                  "\nPattern: " ++ pat.name ++ "\nDescription: " ++ pat.description
                  ++ "\nExample Problems: " ++ String.intercalate ", " pat.example_problems))
            metadata := base ++ [("chunk_type", "problem_patterns")] }]
  let implementation_text :=
    let head := "Topic: " ++ t.title ++ "\nType: Implementation Guide\n\nCommon Mistakes:\n"
      ++ bulleted t.common_mistakes
    match t.implementation_notes with
    | some notes =>
      if notes = "" then head else head ++ "\n\nImplementation Notes:\n" ++ notes
    | Option.none => head
  let implementation : Chunk :=
    { id := topic_id ++ "_implementation"
      text := implementation_text
      metadata := base ++ [("chunk_type", "implementation_guide")] }
  [core] ++ explanation ++ steps ++ [complexityChunk] ++ codeChunks
    ++ [applications] ++ patterns ++ [implementation]

/-- `KnowledgeBaseService.create_chunks_from_topic`: compute the topic id
(falling back to the fresh uuid) and build the chunk list. -/
def create_chunks_from_topic (fresh : String) (t : Topic) : List Chunk :=
  chunksFor (topicIdOf fresh t) t

/-! ## Vector-store upsert and ingestion (`KnowledgeBaseService.ingest_topic`)

The `topics` collection is modelled as an association list keyed by chunk
id; `upsert` replaces the record when the id is already present and
appends it otherwise.  Embedding vectors live with the external embedding
service and carry no information relevant to the claims. -/

/-- Upsert one keyed record. -/
def upsertOne {α : Type} (store : List (String × α)) (kv : String × α) :
    List (String × α) :=
  if store.any (fun p => p.1 == kv.1) then
    store.map (fun p => if p.1 = kv.1 then kv else p)
  else store ++ [kv]

/-- Batch upsert, one record at a time in order. -/
def upsertBatch {α : Type} (store : List (String × α))
    (batch : List (String × α)) : List (String × α) :=
  batch.foldl upsertOne store

/-- `KnowledgeBaseService.ingest_topic`: chunk the topic and upsert the
full batch into the `topics` collection. -/
def ingest_topic (store : List (String × Chunk)) (fresh : String) (t : Topic) :
    List (String × Chunk) :=
  upsertBatch store ((create_chunks_from_topic fresh t).map (fun c => (c.id, c)))

/-! ## Problem data model and chunker
(`app/models/problem.py`, `ProblemService.create_chunks_from_problem`) -/

/-- An input/output example of a problem. -/
structure ProblemExample where
  input : String
  output : String
  explanation : Option String
deriving DecidableEq, Repr

/-- A solution approach; `code` is a language-to-snippet mapping. -/
structure Approach where
  name : String
  time_complexity : String
  space_complexity : String
  explanation : String
  code : List (String × String)
deriving DecidableEq, Repr

/-- `Problem`: the fields `create_chunks_from_problem` reads.
`difficulty` and `source` are the `.value` strings of their enums. -/
structure Problem where
  id : Option String
  title : String
  difficulty : String
  source : String
  topics : List String
  optimal_approach : String
  description : String
  constraints : List String
  examples : List ProblemExample
  approaches : List Approach
  hints : List String
  common_mistakes : List String
  edge_cases : List String
deriving DecidableEq, Repr

/-- Python `problem_data.id or str(uuid.uuid4())`. -/
def problemIdOf (fresh : String) (p : Problem) : String :=
  match p.id with
  | some s => if s = "" then fresh else s
  | Option.none => fresh

/-- `base_metadata` of `create_chunks_from_problem`. -/
def problem_base_metadata (problem_id : String) (p : Problem) : Metadata :=
  [("problem_id", problem_id),
   ("title", p.title),
   ("difficulty", p.difficulty),
   ("source", p.source),
   ("topics", String.intercalate "," p.topics),
   ("optimal_approach", p.optimal_approach)]

/-- Rendering of Python `bool` metadata values (`str(True)`/`str(False)`
shape): the `is_optimal` flag stored on approach chunks. -/
def pyBool (b : Bool) : String := if b then "True" else "False"

/-- `ProblemService.create_chunks_from_problem`: description chunk,
examples chunk, one chunk per solution approach, hints chunk. -/
def create_chunks_from_problem (fresh : String) (p : Problem) : List Chunk :=
  let problem_id := problemIdOf fresh p
  let base := problem_base_metadata problem_id p
  let descriptionChunk : Chunk :=
    { id := problem_id ++ "_description"
      text := "Problem: " ++ p.title ++ "\nDifficulty: " ++ p.difficulty
        ++ "\nSource: " ++ p.source ++ "\n\nDescription:\n" ++ p.description
        ++ "\n\nConstraints:\n" ++ bulleted p.constraints
      metadata := base ++ [("chunk_type", "problem_description")] }
  let examplesChunk : Chunk :=
    { id := problem_id ++ "_examples"
      text := "Problem: " ++ p.title ++ "\nType: Examples\n\nExamples:\n"
        ++ String.intercalate "\n" (p.examples.enum.map (fun q =>
            "Example " ++ natDecimalStr (q.1 + 1) ++ ":\nInput: " ++ q.2.input
            ++ "\nOutput: " ++ q.2.output
            ++ (match q.2.explanation with
                | some e => if e = "" then "" else "\nExplanation: " ++ e
                | Option.none => "")))
      metadata := base ++ [("chunk_type", "examples")] }
  let approachChunks : List Chunk :=
    p.approaches.enum.map (fun q =>
      { id := problem_id ++ "_approach_" ++ natDecimalStr q.1
        text := "Problem: " ++ p.title ++ "\nApproach: " ++ q.2.name
          ++ "\nTime Complexity: " ++ q.2.time_complexity
          ++ "\nSpace Complexity: " ++ q.2.space_complexity
          ++ "\n\nExplanation:\n" ++ q.2.explanation
          ++ (if q.2.code = [] then ""
              else "\n\nCode Implementations:\n"
                ++ String.intercalate "\n" (q.2.code.map (fun c =>
                    "\n" ++ c.1 ++ ":\n" ++ c.2 ++ "\n")))
        metadata := base ++
          [("chunk_type", "solution_approach"),
           ("approach_name", q.2.name),
           ("time_complexity", q.2.time_complexity),
           ("space_complexity", q.2.space_complexity),
           ("is_optimal", pyBool (q.2.name == p.optimal_approach))] })
  let hintsChunk : Chunk :=
    { id := problem_id ++ "_hints"
      text := "Problem: " ++ p.title ++ "\nType: Hints and Guidance\n\nHints:\n"
        ++ numbered p.hints ++ "\n\nCommon Mistakes:\n" ++ bulleted p.common_mistakes
        ++ "\n\nEdge Cases:\n" ++ bulleted p.edge_cases
      metadata := base ++ [("chunk_type", "hints_guidance")] }
  [descriptionChunk, examplesChunk] ++ approachChunks ++ [hintsChunk]

/-! ## Answer orchestrator (`LLMService.generate_rag_response`)

Fallible collaborators are modelled as `Except String` oracles:
* `retrieve`: the whole retrieval step (embedding + vector store query),
  which `retrieve_relevant_chunks_with_context` re-raises on failure;
* `format_context`: `qa_service._format_context_for_llm` (reached only
  when at least one chunk was retrieved);
* `generate`: `LLMService.generate_response`, taking the question and an
  optional context block (`None` models the no-context fallback call).
The `try/except` of `generate_rag_response` is the `match` on each
oracle's result; the Lean function is total, i.e. never raises. -/

/-- The optional `search_options` dict of `generate_rag_response`. -/
structure SearchOptions where
  n_results : Option ℕ
  similarity_threshold : Option ℚ

/-- The dict `generate_rag_response` returns on success
(`search_metadata` and `llm_metadata` flattened into records;
`llm_metadata` holds only constants and is omitted). -/
structure SearchMetadata where
  chunks_found : ℕ
  context_quality : String
  fallback_to_general_knowledge : Bool
  similarity_threshold : ℚ
deriving DecidableEq, Repr

/-- The result dict of `generate_rag_response`; on failure
`search_metadata` is the empty dict, modelled as `Option.none`, and the
success dict carries no `error` key, modelled as `error = Option.none`. -/
structure RAGResponse where
  success : Bool
  query : String
  response : String
  error : Option String
  search_metadata : Option SearchMetadata
  sources : List RetrievedChunk
deriving DecidableEq, Repr

/-- The failure dict built in the `except` branch of
`generate_rag_response`. -/
def failure_response (query e : String) : RAGResponse :=
  { success := false
    query := query
    response := ""
    error := some ("RAG pipeline failed: " ++ e)
    search_metadata := Option.none
    sources := [] }

/-- `LLMService.generate_rag_response`: retrieve, compute search success,
generate (grounded when chunks were retrieved, unassisted otherwise) and
assemble the response; any collaborator failure is converted into
`failure_response`. -/
def generate_rag_response
    (retrieve : String → Option String → ℕ → Except String (List RetrievedChunk))
    (format_context : List RetrievedChunk → Except String String)
    (generate : String → Option String → Except String String)
    (query : String) (context : Option String)
    (search_options : Option SearchOptions) : RAGResponse :=
  let n_results :=
    match search_options with
    | some o => o.n_results.getD 5
    | Option.none => 5
  match retrieve query context n_results with
  | Except.error e => failure_response query e
  | Except.ok chunks =>
    let similarity_threshold :=
      match search_options with
      | some o => o.similarity_threshold.getD (7 / 10)
      | Option.none => 7 / 10
    let is_successful := is_search_successful chunks similarity_threshold
    let gen_result :=
      if chunks = [] then generate query Option.none
      else
        match format_context chunks with
        | Except.error e => Except.error e
        | Except.ok ctx => generate query (some ctx)
    match gen_result with
    | Except.error e => failure_response query e
    | Except.ok llm_response =>
      { success := true
        query := query
        response := llm_response
        error := Option.none
        search_metadata := some
          { chunks_found := chunks.length
            context_quality := if is_successful then "high" else "low"
            fallback_to_general_knowledge := chunks.length = 0
            similarity_threshold := similarity_threshold }
        sources := chunks }

/-! ## Derived id-suffix view of the chunker (proof artifact) -/

/-- The id suffixes of the chunks `chunksFor` produces, in order; the
lemma `chunkIds_eq` shows every chunk id is the topic id followed by its
section suffix. -/
def idSuffixes (t : Topic) : List String :=
  ["_core"]
    ++ (if t.detailed_explanation = "" then [] else ["_explanation"])
    ++ (match t.algorithm_steps with
        | some l => if l = [] then [] else ["_steps"]
        | Option.none => [])
    ++ ["_complexity"]
    ++ t.code_examples.enum.map (fun p => codeSuffix p.2.language p.1)
    ++ ["_applications"]
    ++ (if t.problem_patterns = [] then [] else ["_patterns"])
    ++ ["_implementation"]

/-- The seven fixed (non-code) id suffixes the chunker can emit. -/
def fixedSuffixes : List String :=
  ["_core", "_explanation", "_steps", "_complexity",
   "_applications", "_patterns", "_implementation"]

/-! ## Concrete documents used as test inputs -/

/-- A concrete code example (scenario of §8 of the spec). -/
def binarySearchExample : CodeExample :=
  { code := "low, high = 0, len(arr) - 1"
    language := "python"
    description := "Iterative binary search" }

/-- The end-to-end scenario document: a topic titled Binary Search with
one code example in one language, a complexity table, and no
algorithm steps and no problem patterns. -/
def binarySearchTopic : Topic :=
  { id := some "binary-search"
    title := "Binary Search"
    category := "algorithm"
    difficulty := "beginner"
    prerequisites := ["arrays"]
    related_topics := ["sorting"]
    definition := "Search a sorted array by repeatedly halving the interval."
    key_ideas := ["halve the search interval each step"]
    detailed_explanation := "Compare the target with the middle element."
    algorithm_steps := Option.none
    code_examples := [binarySearchExample]
    complexity := { time := [("search", "O(log n)")], space := "O(1)", notes := Option.none }
    use_cases := ["lookup in sorted data"]
    advantages := ["logarithmic time"]
    disadvantages := ["requires sorted input"]
    common_mistakes := ["off-by-one bounds"]
    problem_patterns := []
    implementation_notes := Option.none }

/-- The same document with no id: `create_chunks_from_topic` then falls
back to the fresh uuid drawn for that call. -/
def topicNoId : Topic := { binarySearchTopic with id := Option.none }

/-- A concrete problem document. -/
def twoSumProblem : Problem :=
  { id := some "two-sum"
    title := "Two Sum"
    difficulty := "easy"
    source := "leetcode"
    topics := ["arrays", "hashing"]
    optimal_approach := "Hash Map"
    description := "Find indices of two numbers adding to target."
    constraints := ["2 <= len(nums)"]
    examples := [{ input := "[2,7,11,15], 9", output := "[0,1]", explanation := Option.none }]
    approaches := [{ name := "Hash Map"
                     time_complexity := "O(n)"
                     space_complexity := "O(n)"
                     explanation := "Store complements in a hash map."
                     code := [] }]
    hints := ["think about complements"]
    common_mistakes := ["reusing the same element"]
    edge_cases := ["duplicate values"] }

/-! # Theorems -/

/-! ## Decimal rendering lemmas -/

theorem digitChar_toNat_sub (d : ℕ) (h : d < 10) :
    (Nat.digitChar d).toNat - 48 = d := by
  interval_cases d <;> decide

theorem digitsVal_natDecimalAux (fuel : ℕ) :
    ∀ n, n < fuel → digitsVal (natDecimalAux fuel n) = n := by
  induction fuel with
  | zero => intro n h; omega
  | succ fuel ih =>
    intro n h
    rw [natDecimalAux]
    split
    · simp [digitsVal, digitChar_toNat_sub n (by omega)]
    · rename_i h10
      have hlt : n / 10 < fuel := by omega
      have hmod : n % 10 < 10 := Nat.mod_lt _ (by omega)
      simp only [digitsVal, List.foldl_append, List.foldl_cons, List.foldl_nil]
      have hih := ih (n / 10) hlt
      simp only [digitsVal] at hih
      rw [hih, digitChar_toNat_sub _ hmod]
      omega

theorem digitsVal_natDecimal (n : ℕ) : digitsVal (natDecimal n) = n :=
  digitsVal_natDecimalAux (n + 1) n (by omega)

theorem natDecimal_inj {a b : ℕ} (h : natDecimal a = natDecimal b) : a = b := by
  rw [← digitsVal_natDecimal a, h, digitsVal_natDecimal]

theorem underscore_not_mem_natDecimalAux (fuel : ℕ) :
    ∀ n, '_' ∉ natDecimalAux fuel n := by
  induction fuel with
  | zero => intro n; simp [natDecimalAux]
  | succ fuel ih =>
    intro n
    rw [natDecimalAux]
    split
    · rename_i h10
      intro hmem
      rw [List.mem_singleton] at hmem
      revert hmem
      interval_cases n <;> decide
    · rename_i h10
      intro hmem
      rcases List.mem_append.mp hmem with hm | hm
      · exact ih (n / 10) hm
      · have hmod : n % 10 < 10 := Nat.mod_lt _ (by omega)
        rw [List.mem_singleton] at hm
        revert hm
        interval_cases hh : (n % 10) <;> decide

theorem underscore_not_mem_natDecimal (n : ℕ) : '_' ∉ natDecimal n :=
  underscore_not_mem_natDecimalAux (n + 1) n

/-! ## Rounding lemmas -/

theorem roundHalfEven_intCast (n : ℤ) : roundHalfEven (n : ℚ) = n := by
  norm_num [roundHalfEven, Int.floor_intCast]

/-! ## Claim theorems: retrieval scoring -/

/-- C1: with the default threshold `t = 0.7`, a retrieved chunk whose
similarity score is exactly `0.7` is marked NOT relevant (per-chunk
relevance uses strict `>`), yet it counts toward overall search success
(non-strict `≥`); a result set whose only chunk scores exactly `0.7`
yields success true with relevant-chunk count 0. -/
theorem boundary_score_not_relevant_but_successful
    (doc : String) (md : Metadata) (ctx : Option String) (q : String) (d : ℚ)
    (hd : 1 - d = 7 / 10) :
    (formatChunk ctx (doc, md, d)).is_relevant = false ∧
    (formatChunk ctx (doc, md, d)).similarity_score = 7 / 10 ∧
    is_search_successful [formatChunk ctx (doc, md, d)] (7 / 10) = true ∧
    ([formatChunk ctx (doc, md, d)].filter (fun c => c.is_relevant)).length = 0 ∧
    (search_with_context ⟨some (fun _ _ _ => [(doc, md, d)]), Option.none⟩
       ⟨q, Option.none, Option.none, Option.none⟩).is_successful = true ∧
    (search_with_context ⟨some (fun _ _ _ => [(doc, md, d)]), Option.none⟩
       ⟨q, Option.none, Option.none, Option.none⟩).relevant_chunks_count = 0 := by
  have hscore : pyRound4 (1 - d) = 7 / 10 := by
    rw [hd]; norm_num [pyRound4, roundHalfEven]
  have hrel : decide ((1 : ℚ) - d > 7 / 10) = false := by
    rw [hd]; norm_num
  refine ⟨by simp [formatChunk, hrel], by simp [formatChunk, hscore], ?_, ?_, ?_, ?_⟩
  · simp [is_search_successful, formatChunk, hscore]
  · simp [formatChunk, hrel]
  · simp [search_with_context, retrieve_relevant_chunks_with_context, parse_context,
      is_search_successful, formatChunk, hscore]
  · simp [search_with_context, retrieve_relevant_chunks_with_context, parse_context,
      formatChunk, hrel]

/-- Witness for C1: the concrete boundary distance `0.3` (score exactly
`0.7`). -/
theorem boundary_score_not_relevant_but_successful_witness :
    (1 - (3 : ℚ) / 10 = 7 / 10) ∧
    ((formatChunk Option.none ("doc", [], (3 : ℚ) / 10)).is_relevant = false ∧
     (formatChunk Option.none ("doc", [], (3 : ℚ) / 10)).similarity_score = 7 / 10 ∧
     is_search_successful [formatChunk Option.none ("doc", [], (3 : ℚ) / 10)] (7 / 10) = true ∧
     ([formatChunk Option.none ("doc", [], (3 : ℚ) / 10)].filter (fun c => c.is_relevant)).length = 0 ∧
     (search_with_context ⟨some (fun _ _ _ => [("doc", [], (3 : ℚ) / 10)]), Option.none⟩
        ⟨"q", Option.none, Option.none, Option.none⟩).is_successful = true ∧
     (search_with_context ⟨some (fun _ _ _ => [("doc", [], (3 : ℚ) / 10)]), Option.none⟩
        ⟨"q", Option.none, Option.none, Option.none⟩).relevant_chunks_count = 0) :=
  ⟨by norm_num,
   boundary_score_not_relevant_but_successful "doc" [] Option.none "q" (3 / 10) (by norm_num)⟩

/-- C10: the reported `similarity_score` is `1 - distance` rounded to 4
decimal digits while `is_relevant` is computed from the unrounded
`1 - distance`; at the concrete distance `d = 0.29996`
(with `0.29995 ≤ d < 0.3`) the chunk reports score exactly `0.7` with
`is_relevant = true`. -/
theorem reported_score_rounded_relevance_unrounded :
    (∀ (ctx : Option String) (doc : String) (md : Metadata) (d : ℚ),
      (formatChunk ctx (doc, md, d)).similarity_score = pyRound4 (1 - d) ∧
      (formatChunk ctx (doc, md, d)).is_relevant = decide (1 - d > 7 / 10)) ∧
    ((29995 : ℚ) / 100000 ≤ 29996 / 100000 ∧ (29996 : ℚ) / 100000 < 3 / 10) ∧
    (formatChunk Option.none ("doc", [], 29996 / 100000)).similarity_score = 7 / 10 ∧
    (formatChunk Option.none ("doc", [], 29996 / 100000)).is_relevant = true := by
  refine ⟨fun ctx doc md d => ⟨rfl, rfl⟩, by norm_num, ?_, ?_⟩
  · show pyRound4 (1 - 29996 / 100000) = 7 / 10
    norm_num [pyRound4, roundHalfEven]
  · show decide ((1 : ℚ) - 29996 / 100000 > 7 / 10) = true
    norm_num

/-- C3 counterexample: the relevance threshold is NOT caller-overridable.
With caller-supplied threshold `0.5`, a returned chunk scoring `0.6`
(`> 0.5`) is still marked `is_relevant = false`, refuting
"relevant iff score exceeds the caller-supplied threshold". -/
theorem caller_threshold_ignored_for_relevance_cex :
    (search_with_context ⟨some (fun _ _ _ => [("doc", [], 2 / 5)]), Option.none⟩
       ⟨"q", Option.none, Option.none, some (1 / 2)⟩).chunks.map (fun c => c.similarity_score)
      = [3 / 5] ∧
    ((1 : ℚ) / 2 < 3 / 5) ∧
    (search_with_context ⟨some (fun _ _ _ => [("doc", [], 2 / 5)]), Option.none⟩
       ⟨"q", Option.none, Option.none, some (1 / 2)⟩).chunks.map (fun c => c.is_relevant)
      = [false] := by
  refine ⟨?_, by norm_num, ?_⟩
  · show [pyRound4 (1 - 2 / 5)] = [(3 : ℚ) / 5]
    norm_num [pyRound4, roundHalfEven]
  · show [decide ((1 : ℚ) - 2 / 5 > 7 / 10)] = [false]
    norm_num

/-- C3 amended: each returned chunk is marked
`is_relevant = (similarity score > 0.7)` with the threshold fixed at
`0.7`; the caller-supplied per-request threshold has no effect on the
returned chunks or on the relevant-chunk count. -/
theorem is_relevant_threshold_fixed :
    (∀ (ctx : Option String) (row : RawRow),
      (formatChunk ctx row).is_relevant = decide (1 - row.2.2 > 7 / 10)) ∧
    (∀ (store : StoreState) (q : String) (c : Option String)
       (n : Option ℕ) (t₁ t₂ : Option ℚ),
      (search_with_context store ⟨q, c, n, t₁⟩).chunks
        = (search_with_context store ⟨q, c, n, t₂⟩).chunks ∧
      (search_with_context store ⟨q, c, n, t₁⟩).relevant_chunks_count
        = (search_with_context store ⟨q, c, n, t₂⟩).relevant_chunks_count) :=
  ⟨fun _ _ => rfl, fun _ _ _ _ _ _ => ⟨rfl, rfl⟩⟩

/-- C7: searching a partition that has never been populated — its
collection is absent (`None`) or holds no matching documents — returns an
empty chunk list with success false; the functions are total, so no
exception escapes. -/
theorem unpopulated_partition_empty_and_unsuccessful
    (q : String) (ctx : Option String) (n : ℕ) (th : ℚ)
    (oracleT oracleP : CollectionOracle)
    (hT : ∀ f k, oracleT q f k = []) (hP : ∀ f k, oracleP q f k = []) :
    retrieve_relevant_chunks_with_context ⟨Option.none, Option.none⟩ q ctx n = [] ∧
    retrieve_relevant_chunks_with_context ⟨some oracleT, some oracleP⟩ q ctx n = [] ∧
    is_search_successful [] th = false ∧
    (search_with_context ⟨Option.none, Option.none⟩ ⟨q, ctx, some n, some th⟩).chunks = [] ∧
    (search_with_context ⟨Option.none, Option.none⟩ ⟨q, ctx, some n, some th⟩).is_successful
      = false := by
  have habsent : retrieve_relevant_chunks_with_context ⟨Option.none, Option.none⟩ q ctx n = [] := by
    simp [retrieve_relevant_chunks_with_context]
  have hempty : retrieve_relevant_chunks_with_context ⟨some oracleT, some oracleP⟩ q ctx n = [] := by
    by_cases hc : (parse_context ctx).collection_type = "topics" <;>
      simp [retrieve_relevant_chunks_with_context, hc, hT, hP]
  refine ⟨habsent, hempty, rfl, ?_, ?_⟩ <;>
    simp [search_with_context, habsent, is_search_successful]

/-- Witness for C7: empty store, constant-empty oracles. -/
theorem unpopulated_partition_empty_and_unsuccessful_witness :
    retrieve_relevant_chunks_with_context ⟨Option.none, Option.none⟩ "q" Option.none 5 = [] ∧
    retrieve_relevant_chunks_with_context
      ⟨some (fun _ _ _ => []), some (fun _ _ _ => [])⟩ "q" Option.none 5 = [] ∧
    is_search_successful [] (7 / 10) = false ∧
    (search_with_context ⟨Option.none, Option.none⟩
       ⟨"q", Option.none, some 5, some (7 / 10)⟩).chunks = [] ∧
    (search_with_context ⟨Option.none, Option.none⟩
       ⟨"q", Option.none, some 5, some (7 / 10)⟩).is_successful = false :=
  unpopulated_partition_empty_and_unsuccessful "q" Option.none 5 (7 / 10)
    (fun _ _ _ => []) (fun _ _ _ => [])
    (fun _ _ => rfl) (fun _ _ => rfl)

/-- C2 (code bug): `determine_collection_type` classifies a
keyword-bearing query as `problems` and the `/search-simple` response
reports that label, but `retrieve_relevant_chunks` drops its
`collection_type` argument, so the search always runs against the
`topics` partition: with an absent `topics` collection and a well-stocked
`problems` collection, the query "solve two sum" is labelled `problems`
yet returns no results. -/
theorem legacy_path_searches_topics_not_problems :
    determine_collection_type "solve two sum" = "problems" ∧
    (∀ (tor p₁ p₂ : Option CollectionOracle) (q : String) (n : ℕ) (th : ℚ),
      (search_simple ⟨tor, p₁⟩ q n th).results = (search_simple ⟨tor, p₂⟩ q n th).results) ∧
    (search_simple
       ⟨Option.none, some (fun _ _ _ => [("Two Sum solution", [("title", "Two Sum")], 0)])⟩
       "solve two sum" 5 (7 / 10)).collection_type = "problems" ∧
    (search_simple
       ⟨Option.none, some (fun _ _ _ => [("Two Sum solution", [("title", "Two Sum")], 0)])⟩
       "solve two sum" 5 (7 / 10)).results = [] ∧
    (search_simple
       ⟨Option.none, some (fun _ _ _ => [("Two Sum solution", [("title", "Two Sum")], 0)])⟩
       "solve two sum" 5 (7 / 10)).search_successful = false := by
  refine ⟨by decide, fun _ _ _ _ _ _ => rfl, by decide, ?_, ?_⟩ <;>
    simp [search_simple, retrieve_relevant_chunks, retrieve_relevant_chunks_with_context,
      parse_context, is_search_successful]

/-! ## Claim theorems: chunker shape -/

/-- C4 counterexample: the scenario document (one code example in one
language, a complexity table, no algorithm steps, no problem patterns)
produces 6 chunks, not 4: the chunker also always emits the
practical-applications and implementation-guide chunks. -/
theorem binary_search_topic_not_four_chunks :
    (create_chunks_from_topic "fresh-uuid" binarySearchTopic).length = 6 ∧
    (create_chunks_from_topic "fresh-uuid" binarySearchTopic).length ≠ 4 := by
  decide

/-- C4 amended: chunking a topic document with one code example, a
complexity table, a non-empty detailed explanation, and no
algorithm steps and no problem patterns produces exactly 6 chunks: core,
explanation, complexity, the code example, plus the unconditionally
emitted practical-applications and implementation-guide chunks. -/
theorem topic_chunker_emits_six_chunks (t : Topic) (fresh : String) (ce : CodeExample)
    (hexp : t.detailed_explanation ≠ "")
    (hsteps : t.algorithm_steps = Option.none ∨ t.algorithm_steps = some [])
    (hpat : t.problem_patterns = [])
    (hcode : t.code_examples = [ce]) :
    (create_chunks_from_topic fresh t).map (fun c => c.metadata.lookup "chunk_type")
      = [some "core_concept", some "detailed_explanation", some "complexity",
         some "code_example", some "practical_applications", some "implementation_guide"] ∧
    (create_chunks_from_topic fresh t).length = 6 := by
  rcases hsteps with h | h <;>
    simp [create_chunks_from_topic, chunksFor, hexp, hpat, hcode, h,
      topic_base_metadata, List.lookup, List.enum, List.enumFrom]

/-- Witness for C4's amended theorem: the Binary Search scenario
document. -/
theorem topic_chunker_emits_six_chunks_witness :
    binarySearchTopic.detailed_explanation ≠ "" ∧
    (binarySearchTopic.algorithm_steps = Option.none ∨
      binarySearchTopic.algorithm_steps = some []) ∧
    binarySearchTopic.problem_patterns = [] ∧
    binarySearchTopic.code_examples = [binarySearchExample] ∧
    ((create_chunks_from_topic "fresh-uuid" binarySearchTopic).map
        (fun c => c.metadata.lookup "chunk_type")
      = [some "core_concept", some "detailed_explanation", some "complexity",
         some "code_example", some "practical_applications", some "implementation_guide"] ∧
     (create_chunks_from_topic "fresh-uuid" binarySearchTopic).length = 6) :=
  ⟨by decide, Or.inl rfl, rfl, rfl,
   topic_chunker_emits_six_chunks binarySearchTopic "fresh-uuid" binarySearchExample
     (by decide) (Or.inl rfl) rfl rfl⟩

/-! ## Claim theorems: context-hint resolution -/

theorem append_ne_empty_of_left (a b : String) (ha : a.data ≠ []) : (a ++ b) ≠ "" := by
  intro h
  apply ha
  have h2 := congrArg String.data h
  rw [String.data_append] at h2
  exact (List.append_eq_nil.mp h2).1

theorem pyStartsWith_append_self (a b : String) : pyStartsWith (a ++ b) a = true := by
  simp only [pyStartsWith, String.data_append, List.isPrefixOf_iff_prefix]
  exact List.prefix_append _ _

theorem pyDrop_append (a b : String) : pyDrop (a ++ b) a.data.length = b := by
  apply String.ext
  simp [pyDrop, String.data_append, List.drop_left]

theorem chunksFor_metadata_base (tid : String) (t : Topic) :
    ∀ c ∈ chunksFor tid t, ∃ rest, c.metadata = topic_base_metadata tid t ++ rest := by
  intro c hc
  simp only [chunksFor] at hc
  rcases List.mem_append.mp hc with hc | h
  on_goal 2 => rw [List.mem_singleton] at h; subst h; exact ⟨_, rfl⟩
  rcases List.mem_append.mp hc with hc | h
  on_goal 2 =>
    split at h
    · simp at h
    · rw [List.mem_singleton] at h; subst h; exact ⟨_, rfl⟩
  rcases List.mem_append.mp hc with hc | h
  on_goal 2 => rw [List.mem_singleton] at h; subst h; exact ⟨_, rfl⟩
  rcases List.mem_append.mp hc with hc | h
  on_goal 2 =>
    obtain ⟨p, hp, rfl⟩ := List.mem_map.mp h
    exact ⟨_, rfl⟩
  rcases List.mem_append.mp hc with hc | h
  on_goal 2 => rw [List.mem_singleton] at h; subst h; exact ⟨_, rfl⟩
  rcases List.mem_append.mp hc with hc | h
  on_goal 2 =>
    split at h
    · split at h
      · simp at h
      · rw [List.mem_singleton] at h; subst h; exact ⟨_, rfl⟩
    · simp at h
  rcases List.mem_append.mp hc with hc | h
  on_goal 2 =>
    split at h
    · simp at h
    · rw [List.mem_singleton] at h; subst h; exact ⟨_, rfl⟩
  rw [List.mem_singleton] at hc; subst hc; exact ⟨_, rfl⟩

theorem problem_chunks_metadata_base (fresh : String) (p : Problem) :
    ∀ c ∈ create_chunks_from_problem fresh p,
      ∃ rest, c.metadata = problem_base_metadata (problemIdOf fresh p) p ++ rest := by
  intro c hc
  simp only [create_chunks_from_problem] at hc
  rcases List.mem_append.mp hc with hc | h
  on_goal 2 => rw [List.mem_singleton] at h; subst h; exact ⟨_, rfl⟩
  rcases List.mem_append.mp hc with hc | h
  on_goal 2 =>
    obtain ⟨q, hq, rfl⟩ := List.mem_map.mp h
    exact ⟨_, rfl⟩
  rcases List.mem_cons.mp hc with h | h
  · subst h; exact ⟨_, rfl⟩
  · rw [List.mem_singleton] at h; subst h; exact ⟨_, rfl⟩

/-- C5: context-hint resolution.  No hint (or the falsy empty hint)
resolves to `topics` with no filter; `"topic:<name>"` resolves to
`topics` with an exact filter that matches an ingested topic chunk iff
the topic's title equals the (stripped) name; `"problem:<ref>"` resolves
to `problems` with a disjunctive filter that matches an ingested problem
chunk iff its title or its document id equals the (stripped) ref; any
other non-empty hint resolves to `topics` with the exact title filter on
the raw hint. -/
theorem context_hint_resolution
    (nm r h tid freshP : String) (t : Topic) (p : Problem)
    (hh1 : pyStartsWith h "topic:" = false) (hh2 : pyStartsWith h "problem:" = false)
    (hh3 : h ≠ "") :
    parse_context Option.none = ⟨"topics", Filter.none⟩ ∧
    parse_context (some "") = ⟨"topics", Filter.none⟩ ∧
    parse_context (some ("topic:" ++ nm)) = ⟨"topics", Filter.topicEq (pyStrip nm)⟩ ∧
    parse_context (some ("problem:" ++ r)) = ⟨"problems", Filter.problemOr (pyStrip r)⟩ ∧
    parse_context (some h) = ⟨"topics", Filter.topicEq h⟩ ∧
    (∀ c ∈ chunksFor tid t,
      filterMatches (Filter.topicEq nm) c.metadata = (t.title == nm)) ∧
    (∀ c ∈ create_chunks_from_problem freshP p,
      filterMatches (Filter.problemOr r) c.metadata
        = (p.title == r || problemIdOf freshP p == r)) := by
  have hPnotT : pyStartsWith ("problem:" ++ r) "topic:" = false := rfl
  have hTne : ("topic:" ++ nm) ≠ "" := append_ne_empty_of_left _ _ (by decide)
  have hPne : ("problem:" ++ r) ≠ "" := append_ne_empty_of_left _ _ (by decide)
  have hTdrop : pyDrop ("topic:" ++ nm) 6 = nm := pyDrop_append "topic:" nm
  have hPdrop : pyDrop ("problem:" ++ r) 8 = r := pyDrop_append "problem:" r
  refine ⟨rfl, by simp [parse_context], ?_, ?_, ?_, ?_, ?_⟩
  · simp [parse_context, hTne, pyStartsWith_append_self, hTdrop]
  · simp [parse_context, hPne, hPnotT, pyStartsWith_append_self, hPdrop]
  · simp [parse_context, hh1, hh2, hh3]
  · intro c hc
    obtain ⟨rest, hmd⟩ := chunksFor_metadata_base tid t c hc
    simp [filterMatches, hmd, topic_base_metadata, List.lookup]
  · intro c hc
    obtain ⟨rest, hmd⟩ := problem_chunks_metadata_base freshP p c hc
    simp [filterMatches, hmd, problem_base_metadata, List.lookup]

/-- Witness for C5 at concrete hints and documents. -/
theorem context_hint_resolution_witness :
    pyStartsWith "Linked List" "topic:" = false ∧
    pyStartsWith "Linked List" "problem:" = false ∧
    "Linked List" ≠ "" ∧
    (parse_context Option.none = ⟨"topics", Filter.none⟩ ∧
     parse_context (some "") = ⟨"topics", Filter.none⟩ ∧
     parse_context (some ("topic:" ++ "Linked List"))
       = ⟨"topics", Filter.topicEq (pyStrip "Linked List")⟩ ∧
     parse_context (some ("problem:" ++ "two-sum"))
       = ⟨"problems", Filter.problemOr (pyStrip "two-sum")⟩ ∧
     parse_context (some "Linked List") = ⟨"topics", Filter.topicEq "Linked List"⟩ ∧
     (∀ c ∈ chunksFor "t1" binarySearchTopic,
       filterMatches (Filter.topicEq "Linked List") c.metadata
         = (binarySearchTopic.title == "Linked List")) ∧
     (∀ c ∈ create_chunks_from_problem "f1" twoSumProblem,
       filterMatches (Filter.problemOr "two-sum") c.metadata
         = (twoSumProblem.title == "two-sum"
            || problemIdOf "f1" twoSumProblem == "two-sum"))) :=
  ⟨by decide, by decide, by decide,
   context_hint_resolution "Linked List" "two-sum" "Linked List" "t1" "f1"
     binarySearchTopic twoSumProblem (by decide) (by decide) (by decide)⟩

/-! ## Claim theorems: answer orchestrator -/

/-- C8: when retrieval returns zero chunks, the answer operation still
returns the answer produced by unassisted generation (the generation
service is invoked with no context), non-empty whenever the generation
service returned non-empty text, and the result is flagged as a fallback
(`fallback_to_general_knowledge = true`, `context_quality = "low"`)
rather than a grounded answer. -/
theorem zero_chunks_unassisted_fallback
    (retrieve : String → Option String → ℕ → Except String (List RetrievedChunk))
    (format_context : List RetrievedChunk → Except String String)
    (generate : String → Option String → Except String String)
    (query : String) (context : Option String) (opts : Option SearchOptions) (ans : String)
    (hret : ∀ k, retrieve query context k = Except.ok [])
    (hgen : generate query Option.none = Except.ok ans) (hne : ans ≠ "") :
    (generate_rag_response retrieve format_context generate query context opts).success = true ∧
    (generate_rag_response retrieve format_context generate query context opts).response = ans ∧
    (generate_rag_response retrieve format_context generate query context opts).response ≠ "" ∧
    (generate_rag_response retrieve format_context generate query context opts).search_metadata.map
      (fun m => m.fallback_to_general_knowledge) = some true ∧
    (generate_rag_response retrieve format_context generate query context opts).search_metadata.map
      (fun m => m.context_quality) = some "low" ∧
    (generate_rag_response retrieve format_context generate query context opts).sources = [] := by
  refine ⟨?_, ?_, ?_, ?_, ?_, ?_⟩ <;>
    simp [generate_rag_response, hret, hgen, is_search_successful, hne]

/-- Witness for C8: empty retrieval, concrete generation output. -/
theorem zero_chunks_unassisted_fallback_witness :
    (∀ k, (fun (_ : String) (_ : Option String) (_ : ℕ) =>
        Except.ok (ε := String) ([] : List RetrievedChunk)) "q" Option.none k
      = Except.ok []) ∧
    ((fun (_ : String) (_ : Option String) => Except.ok (ε := String) "general answer")
        "q" (Option.none : Option String) = Except.ok "general answer") ∧
    "general answer" ≠ "" ∧
    ((generate_rag_response (fun _ _ _ => Except.ok []) (fun _ => Except.ok "")
        (fun _ _ => Except.ok "general answer") "q" Option.none Option.none).success = true ∧
     (generate_rag_response (fun _ _ _ => Except.ok []) (fun _ => Except.ok "")
        (fun _ _ => Except.ok "general answer") "q" Option.none Option.none).response
       = "general answer" ∧
     (generate_rag_response (fun _ _ _ => Except.ok []) (fun _ => Except.ok "")
        (fun _ _ => Except.ok "general answer") "q" Option.none Option.none).response ≠ "" ∧
     (generate_rag_response (fun _ _ _ => Except.ok []) (fun _ => Except.ok "")
        (fun _ _ => Except.ok "general answer") "q" Option.none Option.none).search_metadata.map
       (fun m => m.fallback_to_general_knowledge) = some true ∧
     (generate_rag_response (fun _ _ _ => Except.ok []) (fun _ => Except.ok "")
        (fun _ _ => Except.ok "general answer") "q" Option.none Option.none).search_metadata.map
       (fun m => m.context_quality) = some "low" ∧
     (generate_rag_response (fun _ _ _ => Except.ok []) (fun _ => Except.ok "")
        (fun _ _ => Except.ok "general answer") "q" Option.none Option.none).sources = []) :=
  ⟨fun _ => rfl, rfl, by decide,
   zero_chunks_unassisted_fallback (fun _ _ _ => Except.ok []) (fun _ => Except.ok "")
     (fun _ _ => Except.ok "general answer") "q" Option.none Option.none "general answer"
     (fun _ => rfl) rfl (by decide)⟩

/-- C9: the answer orchestrator is total (never raises) and every
possible result is either a success carrying no error, or the structured
failure result with an error message, empty answer and empty sources; in
particular a retrieval failure is converted into exactly that failure
result. -/
theorem orchestrator_never_raises
    (retrieve : String → Option String → ℕ → Except String (List RetrievedChunk))
    (format_context : List RetrievedChunk → Except String String)
    (generate : String → Option String → Except String String)
    (query : String) (context : Option String) (opts : Option SearchOptions) :
    (((generate_rag_response retrieve format_context generate query context opts).success = true ∧
      (generate_rag_response retrieve format_context generate query context opts).error
        = Option.none) ∨
     (∃ e, generate_rag_response retrieve format_context generate query context opts
          = failure_response query e ∧
        (generate_rag_response retrieve format_context generate query context opts).success
          = false ∧
        (generate_rag_response retrieve format_context generate query context opts).response
          = "" ∧
        (generate_rag_response retrieve format_context generate query context opts).sources
          = [] ∧
        (generate_rag_response retrieve format_context generate query context opts).error
          = some ("RAG pipeline failed: " ++ e))) ∧
    (∀ e, retrieve query context
        (match opts with | some o => o.n_results.getD 5 | Option.none => 5) = Except.error e →
      generate_rag_response retrieve format_context generate query context opts
        = failure_response query e) := by
  constructor
  · cases hr : retrieve query context
        (match opts with | some o => o.n_results.getD 5 | Option.none => 5) with
    | error e =>
      right
      refine ⟨e, ?_, ?_, ?_, ?_, ?_⟩ <;> simp [generate_rag_response, hr, failure_response]
    | ok chunks =>
      cases hgen : (if chunks = [] then generate query Option.none
          else match format_context chunks with
               | Except.error e => Except.error e
               | Except.ok ctx => generate query (some ctx)) with
      | error e =>
        right
        refine ⟨e, ?_, ?_, ?_, ?_, ?_⟩ <;> simp [generate_rag_response, hr, hgen, failure_response]
      | ok ans =>
        left
        constructor <;> simp [generate_rag_response, hr, hgen]
  · intro e hr
    simp [generate_rag_response, hr]

/-- Witness for C9: a failing retrieval oracle is converted into the
structured failure result. -/
theorem orchestrator_never_raises_witness :
    generate_rag_response (fun _ _ _ => Except.error "store down")
      (fun _ => Except.ok "") (fun _ _ => Except.ok "") "q" Option.none Option.none
      = failure_response "q" "store down" :=
  (orchestrator_never_raises (fun _ _ _ => Except.error "store down")
    (fun _ => Except.ok "") (fun _ _ => Except.ok "") "q" Option.none Option.none).2
    "store down" rfl

/-! ## Claim theorems: ingestion idempotence

Chunk-id disjointness: the fixed section suffixes are pairwise distinct,
a code-example suffix can never equal a fixed suffix (its 4th character
is `d`), and two code-example suffixes agree only if their indices do
(split at the last underscore: the decimal index contains none). -/

theorem splitAtSep (a₁ : List Char) :
    ∀ (a₂ b₁ b₂ : List Char), '_' ∉ a₁ → '_' ∉ a₂ →
      a₁ ++ '_' :: b₁ = a₂ ++ '_' :: b₂ → a₁ = a₂ ∧ b₁ = b₂ := by
  induction a₁ with
  | nil =>
    intro a₂ b₁ b₂ h₁ h₂ h
    cases a₂ with
    | nil => simpa using h
    | cons c t =>
      exfalso
      simp only [List.nil_append, List.cons_append, List.cons.injEq] at h
      exact h₂ (h.1 ▸ List.mem_cons_self c t)
  | cons c t ih =>
    intro a₂ b₁ b₂ h₁ h₂ h
    cases a₂ with
    | nil =>
      exfalso
      simp only [List.cons_append, List.nil_append, List.cons.injEq] at h
      exact h₁ (h.1 ▸ List.mem_cons_self c t)
    | cons c' t' =>
      simp only [List.cons_append, List.cons.injEq] at h
      obtain ⟨hc, ht⟩ := h
      subst hc
      obtain ⟨ha, hb⟩ :=
        ih t' b₁ b₂ (fun hx => h₁ (List.mem_cons_of_mem _ hx))
          (fun hx => h₂ (List.mem_cons_of_mem _ hx)) ht
      exact ⟨by rw [ha], hb⟩

theorem codeSuffix_data (l : String) (i : ℕ) :
    (codeSuffix l i).data = ("_code_".data ++ l.data) ++ '_' :: natDecimal i := by
  simp [codeSuffix, String.data_append, List.append_assoc]

theorem codeSuffix_inj {l₁ l₂ : String} {i j : ℕ}
    (h : codeSuffix l₁ i = codeSuffix l₂ j) : i = j := by
  have hd := congrArg String.data h
  rw [codeSuffix_data, codeSuffix_data] at hd
  have hrev := congrArg List.reverse hd
  simp only [List.reverse_append, List.reverse_cons, List.append_assoc,
    List.singleton_append] at hrev
  obtain ⟨hD, -⟩ := splitAtSep _ _ _ _
    (by simp [underscore_not_mem_natDecimal])
    (by simp [underscore_not_mem_natDecimal]) hrev
  have hij : natDecimal i = natDecimal j := by
    have := congrArg List.reverse hD
    simpa using this
  exact natDecimal_inj hij

theorem codeSuffix_take4 (l : String) (i : ℕ) :
    (codeSuffix l i).data.take 4 = ['_', 'c', 'o', 'd'] := rfl

theorem codeSuffix_ne_fixed (l : String) (i : ℕ) (s : String)
    (hs : s ∈ fixedSuffixes) : codeSuffix l i ≠ s := by
  intro h
  have h4 : (codeSuffix l i).data.take 4 = s.data.take 4 := by rw [h]
  rw [codeSuffix_take4] at h4
  fin_cases hs <;> exact absurd h4 (by decide)

theorem code_suffixes_nodup (t : Topic) :
    (t.code_examples.enum.map (fun p => codeSuffix p.2.language p.1)).Nodup := by
  have henum : t.code_examples.enum.Nodup :=
    List.Nodup.of_map Prod.fst (List.nodup_enum_map_fst _)
  refine List.Nodup.map_on ?_ henum
  intro x hx y hy hxy
  exact List.inj_on_of_nodup_map (List.nodup_enum_map_fst _) hx hy (codeSuffix_inj hxy)

theorem fixed_not_mem_code (s : String) (hs : s ∈ fixedSuffixes) (t : Topic) :
    s ∉ t.code_examples.enum.map (fun p => codeSuffix p.2.language p.1) := by
  intro hmem
  obtain ⟨p, -, hp⟩ := List.mem_map.mp hmem
  exact codeSuffix_ne_fixed _ _ s hs hp

theorem nodup_fixed_code_fixed (t : Topic) (A B : List String)
    (hA : ∀ s ∈ A, s ∈ fixedSuffixes) (hB : ∀ s ∈ B, s ∈ fixedSuffixes)
    (hAB : (A ++ B).Nodup) :
    (A ++ (t.code_examples.enum.map (fun p => codeSuffix p.2.language p.1) ++ B)).Nodup := by
  rw [List.nodup_append] at hAB
  obtain ⟨hAnd, hBnd, hABdisj⟩ := hAB
  rw [List.nodup_append]
  refine ⟨hAnd, ?_, ?_⟩
  · rw [List.nodup_append]
    refine ⟨code_suffixes_nodup t, hBnd, ?_⟩
    intro a hc hb
    obtain ⟨p, -, hp⟩ := List.mem_map.mp hc
    exact codeSuffix_ne_fixed _ _ a (hB a hb) hp
  · intro a haA ha2
    rcases List.mem_append.mp ha2 with hc | hb
    · exact fixed_not_mem_code a (hA a haA) t hc
    · exact hABdisj haA hb

theorem chunkIds_eq (tid : String) (t : Topic) :
    (chunksFor tid t).map (fun c => c.id) = (idSuffixes t).map (fun s => tid ++ s) := by
  simp only [chunksFor, idSuffixes]
  cases t.algorithm_steps with
  | none =>
    by_cases hexp : t.detailed_explanation = "" <;> by_cases hpat : t.problem_patterns = [] <;>
      simp [hexp, hpat, Function.comp]
  | some steps =>
    by_cases hst : steps = [] <;> by_cases hexp : t.detailed_explanation = "" <;>
      by_cases hpat : t.problem_patterns = [] <;> simp [hst, hexp, hpat, Function.comp]

theorem idSuffixes_nodup (t : Topic) : (idSuffixes t).Nodup := by
  simp only [idSuffixes]
  cases t.algorithm_steps with
  | none =>
    by_cases hexp : t.detailed_explanation = "" <;> by_cases hpat : t.problem_patterns = []
    · simp only [hexp, hpat, if_true, List.nil_append, List.append_assoc, if_pos,
        List.singleton_append, List.cons_append]
      exact nodup_fixed_code_fixed t ["_core", "_complexity"]
        ["_applications", "_implementation"] (by decide) (by decide) (by decide)
    · simp only [hexp, hpat, if_true, if_neg, List.nil_append, List.append_assoc,
        List.singleton_append, List.cons_append, ite_false, ite_true]
      exact nodup_fixed_code_fixed t ["_core", "_complexity"]
        ["_applications", "_patterns", "_implementation"] (by decide) (by decide) (by decide)
    · simp only [hexp, hpat, List.nil_append, List.append_assoc, List.singleton_append,
        List.cons_append, ite_false, ite_true, if_neg, if_pos]
      exact nodup_fixed_code_fixed t ["_core", "_explanation", "_complexity"]
        ["_applications", "_implementation"] (by decide) (by decide) (by decide)
    · simp only [hexp, hpat, List.nil_append, List.append_assoc, List.singleton_append,
        List.cons_append, ite_false, ite_true]
      exact nodup_fixed_code_fixed t ["_core", "_explanation", "_complexity"]
        ["_applications", "_patterns", "_implementation"] (by decide) (by decide) (by decide)
  | some steps =>
    by_cases hst : steps = [] <;> by_cases hexp : t.detailed_explanation = "" <;>
      by_cases hpat : t.problem_patterns = []
    · simp only [hst, hexp, hpat, List.nil_append, List.append_assoc, List.singleton_append,
        List.cons_append, ite_false, ite_true]
      exact nodup_fixed_code_fixed t ["_core", "_complexity"]
        ["_applications", "_implementation"] (by decide) (by decide) (by decide)
    · simp only [hst, hexp, hpat, List.nil_append, List.append_assoc, List.singleton_append,
        List.cons_append, ite_false, ite_true]
      exact nodup_fixed_code_fixed t ["_core", "_complexity"]
        ["_applications", "_patterns", "_implementation"] (by decide) (by decide) (by decide)
    · simp only [hst, hexp, hpat, List.nil_append, List.append_assoc, List.singleton_append,
        List.cons_append, ite_false, ite_true]
      exact nodup_fixed_code_fixed t ["_core", "_explanation", "_complexity"]
        ["_applications", "_implementation"] (by decide) (by decide) (by decide)
    · simp only [hst, hexp, hpat, List.nil_append, List.append_assoc, List.singleton_append,
        List.cons_append, ite_false, ite_true]
      exact nodup_fixed_code_fixed t ["_core", "_explanation", "_complexity"]
        ["_applications", "_patterns", "_implementation"] (by decide) (by decide) (by decide)
    · simp only [hst, hexp, hpat, List.nil_append, List.append_assoc, List.singleton_append,
        List.cons_append, ite_false, ite_true]
      exact nodup_fixed_code_fixed t ["_core", "_steps", "_complexity"]
        ["_applications", "_implementation"] (by decide) (by decide) (by decide)
    · simp only [hst, hexp, hpat, List.nil_append, List.append_assoc, List.singleton_append,
        List.cons_append, ite_false, ite_true]
      exact nodup_fixed_code_fixed t ["_core", "_steps", "_complexity"]
        ["_applications", "_patterns", "_implementation"] (by decide) (by decide) (by decide)
    · simp only [hst, hexp, hpat, List.nil_append, List.append_assoc, List.singleton_append,
        List.cons_append, ite_false, ite_true]
      exact nodup_fixed_code_fixed t ["_core", "_explanation", "_steps", "_complexity"]
        ["_applications", "_implementation"] (by decide) (by decide) (by decide)
    · simp only [hst, hexp, hpat, List.nil_append, List.append_assoc, List.singleton_append,
        List.cons_append, ite_false, ite_true]
      exact nodup_fixed_code_fixed t ["_core", "_explanation", "_steps", "_complexity"]
        ["_applications", "_patterns", "_implementation"] (by decide) (by decide) (by decide)

theorem chunkIds_nodup (tid : String) (t : Topic) :
    ((chunksFor tid t).map (fun c => c.id)).Nodup := by
  rw [chunkIds_eq]
  refine List.Nodup.map_on ?_ (idSuffixes_nodup t)
  intro x _ y _ hxy
  have hd := congrArg String.data hxy
  rw [String.data_append, String.data_append] at hd
  exact String.ext (List.append_cancel_left hd)

theorem keys_upsertOne {α : Type} (s : List (String × α)) (kv : String × α) :
    (upsertOne s kv).map Prod.fst
      = if kv.1 ∈ s.map Prod.fst then s.map Prod.fst else s.map Prod.fst ++ [kv.1] := by
  unfold upsertOne
  by_cases hmem : kv.1 ∈ s.map Prod.fst
  · have hany : s.any (fun p => p.1 == kv.1) = true := by
      rw [List.any_eq_true]
      obtain ⟨p, hp, hfst⟩ := List.mem_map.mp hmem
      exact ⟨p, hp, by simp [hfst]⟩
    rw [if_pos hany, if_pos hmem, List.map_map]
    apply List.map_congr_left
    intro p _
    by_cases h : p.1 = kv.1 <;> simp [h]
  · have hany : ¬ s.any (fun p => p.1 == kv.1) = true := by
      rw [List.any_eq_true]
      rintro ⟨p, hp, hbeq⟩
      exact hmem (List.mem_map.mpr ⟨p, hp, by simpa using hbeq⟩)
    rw [if_neg hany, if_neg hmem, List.map_append]
    rfl

theorem keys_upsertBatch {α : Type} (batch : List (String × α)) :
    ∀ s : List (String × α), (batch.map Prod.fst).Nodup →
      (upsertBatch s batch).map Prod.fst
        = s.map Prod.fst
            ++ (batch.map Prod.fst).filter (fun k => decide (¬ k ∈ s.map Prod.fst)) := by
  induction batch with
  | nil => intro s _; simp [upsertBatch]
  | cons kv rest ih =>
    intro s hnd
    rw [List.map_cons, List.nodup_cons] at hnd
    obtain ⟨hk, hrest⟩ := hnd
    show (upsertBatch (upsertOne s kv) rest).map Prod.fst = _
    rw [ih (upsertOne s kv) hrest, keys_upsertOne]
    by_cases hmem : kv.1 ∈ s.map Prod.fst
    · rw [if_pos hmem]
      simp [List.filter_cons, hmem]
    · rw [if_neg hmem, List.map_cons, List.filter_cons]
      have hcond : (fun k => decide (¬ k ∈ s.map Prod.fst)) kv.1 = true := by
        simp [hmem]
      rw [if_pos hcond, List.append_assoc, List.singleton_append]
      congr 1
      congr 1
      refine List.filter_congr ?_
      intro k hkmem
      have hkne : k ≠ kv.1 := fun h => hk (h ▸ hkmem)
      simp [List.mem_append, hkne]

theorem upsertBatch_twice_length {α : Type} (batch : List (String × α))
    (hnd : (batch.map Prod.fst).Nodup) :
    (upsertBatch ([] : List (String × α)) batch).length = batch.length ∧
    (upsertBatch (upsertBatch [] batch) batch).length = batch.length := by
  have h1 : (upsertBatch ([] : List (String × α)) batch).map Prod.fst = batch.map Prod.fst := by
    rw [keys_upsertBatch batch [] hnd]
    simp
  have h2 : (upsertBatch (upsertBatch [] batch) batch).map Prod.fst = batch.map Prod.fst := by
    rw [keys_upsertBatch batch _ hnd, h1]
    have : (batch.map Prod.fst).filter
        (fun k => decide (¬ k ∈ batch.map Prod.fst)) = [] := by
      apply List.filter_eq_nil_iff.mpr
      intro k hkmem
      simp [hkmem]
    rw [this, List.append_nil]
  constructor
  · calc (upsertBatch ([] : List (String × α)) batch).length
        = ((upsertBatch ([] : List (String × α)) batch).map Prod.fst).length :=
          (List.length_map _ _).symm
      _ = (batch.map Prod.fst).length := by rw [h1]
      _ = batch.length := List.length_map _ _
  · calc (upsertBatch (upsertBatch [] batch) batch).length
        = ((upsertBatch (upsertBatch [] batch) batch).map Prod.fst).length :=
          (List.length_map _ _).symm
      _ = (batch.map Prod.fst).length := by rw [h2]
      _ = batch.length := List.length_map _ _

/-- C6 counterexample: for a document without an id, chunk ids depend on
the fresh uuid drawn per chunking call, so chunking twice yields
different id sets and ingesting twice duplicates (12 stored chunks for a
6-chunk document) instead of overwriting. -/
theorem unidentified_doc_ingestion_duplicates_cex :
    ((create_chunks_from_topic "uuid-1" topicNoId).map (fun c => c.id)
      ≠ (create_chunks_from_topic "uuid-2" topicNoId).map (fun c => c.id)) ∧
    (create_chunks_from_topic "uuid-1" topicNoId).length = 6 ∧
    (ingest_topic (ingest_topic [] "uuid-1" topicNoId) "uuid-2" topicNoId).length = 12 := by
  refine ⟨by decide, by decide, by decide⟩

/-- C6 amended: for every document carrying a non-empty id, chunk ids are
derived deterministically from the document id plus a section tag —
chunking twice (with any fresh uuids) yields identical chunks, the id
set is duplicate-free, and the store holds exactly N chunks after either
one or two ingestions (upsert overwrites rather than duplicates).  A
document without an id instead gets a fresh random uuid on each chunking
call. -/
theorem ingestion_idempotent_for_identified_docs
    (t : Topic) (tid : String) (hid : t.id = some tid) (hne : tid ≠ "")
    (u₁ u₂ : String) :
    create_chunks_from_topic u₁ t = create_chunks_from_topic u₂ t ∧
    ((create_chunks_from_topic u₁ t).map (fun c => c.id)).Nodup ∧
    (ingest_topic [] u₁ t).length = (create_chunks_from_topic u₁ t).length ∧
    (ingest_topic (ingest_topic [] u₁ t) u₂ t).length
      = (create_chunks_from_topic u₁ t).length := by
  have hid1 : topicIdOf u₁ t = tid := by simp [topicIdOf, hid, hne]
  have hid2 : topicIdOf u₂ t = tid := by simp [topicIdOf, hid, hne]
  have hdet : create_chunks_from_topic u₁ t = create_chunks_from_topic u₂ t := by
    unfold create_chunks_from_topic
    rw [hid1, hid2]
  have hnd : ((create_chunks_from_topic u₁ t).map (fun c => c.id)).Nodup := by
    unfold create_chunks_from_topic
    rw [hid1]
    exact chunkIds_nodup tid t
  have hbk : (((create_chunks_from_topic u₁ t).map (fun c => (c.id, c))).map Prod.fst)
      = (create_chunks_from_topic u₁ t).map (fun c => c.id) := by
    rw [List.map_map]
    rfl
  have hcount := upsertBatch_twice_length
    ((create_chunks_from_topic u₁ t).map (fun c => (c.id, c))) (by rw [hbk]; exact hnd)
  refine ⟨hdet, hnd, ?_, ?_⟩
  · unfold ingest_topic
    rw [hcount.1, List.length_map]
  · unfold ingest_topic
    rw [← hdet, hcount.2, List.length_map]

/-- Witness for C6's amended theorem: the identified Binary Search
document ingested twice with different fresh uuids. -/
theorem ingestion_idempotent_for_identified_docs_witness :
    binarySearchTopic.id = some "binary-search" ∧ "binary-search" ≠ "" ∧
    (create_chunks_from_topic "u1" binarySearchTopic
        = create_chunks_from_topic "u2" binarySearchTopic ∧
     ((create_chunks_from_topic "u1" binarySearchTopic).map (fun c => c.id)).Nodup ∧
     (ingest_topic [] "u1" binarySearchTopic).length
        = (create_chunks_from_topic "u1" binarySearchTopic).length ∧
     (ingest_topic (ingest_topic [] "u1" binarySearchTopic) "u2" binarySearchTopic).length
        = (create_chunks_from_topic "u1" binarySearchTopic).length) :=
  ⟨rfl, by decide,
   ingestion_idempotent_for_identified_docs binarySearchTopic "binary-search" rfl
     (by decide) "u1" "u2"⟩

end DailyBit
